import Mathlib

/-!
Shallow embedding of the OJNet-go packet codec (package ojnet: the protocol
source file and the big-endian primitive writers).

Bytes are modelled as natural numbers (each below 256 on well-formed wire
data).  A Go byte buffer being read is the list of bytes not yet consumed:
reads take from the front of the list.  Go functions returning error are
embedded with Except/Option; a Go runtime panic (out-of-range slice index)
is the Outcome.crash value, which no ordinary return path produces.
-/

/-- Result of a Go method returning error, with a marker for runtime panics. -/
inductive Outcome where
  | ok : Outcome
  | fail : String → Outcome
  | crash : Outcome
deriving Repr, DecidableEq

/-- binary.BigEndian.PutUint16 via WriteUInt16: two big-endian bytes. -/
def u16be (v : Nat) : List Nat :=
  [v / 256 % 256, v % 256]

/-- binary.BigEndian.PutUint32 via WriteUInt32: four big-endian bytes. -/
def u32be (v : Nat) : List Nat :=
  [v / 2 ^ 24 % 256, v / 2 ^ 16 % 256, v / 2 ^ 8 % 256, v % 256]

/-- binary.BigEndian.PutUint64 via WriteUInt64: eight big-endian bytes. -/
def u64be (v : Nat) : List Nat :=
  [v / 2 ^ 56 % 256, v / 2 ^ 48 % 256, v / 2 ^ 40 % 256, v / 2 ^ 32 % 256,
   v / 2 ^ 24 % 256, v / 2 ^ 16 % 256, v / 2 ^ 8 % 256, v % 256]

/-- Big-endian value of a byte slice (binary.BigEndian read order). -/
def beVal (bs : List Nat) : Nat :=
  bs.foldl (fun acc b => acc * 256 + b) 0

/-- bytes.Buffer.ReadByte: pops the next byte; on an empty buffer Go returns
byte 0 with io.EOF, and every call site ignores the error. -/
def readByte : List Nat → Nat × List Nat
  | [] => (0, [])
  | b :: rest => (b, rest)

/-- bytes.Buffer.ReadBytes(delim): reads up to AND INCLUDING the first
occurrence of the delimiter byte; when the delimiter is absent it reads the
whole rest of the buffer (with io.EOF, ignored by every call site).  The
source calls this with 8 and 4 as if it read that many bytes. -/
def readBytesDelim (delim : Nat) : List Nat → List Nat × List Nat
  | [] => ([], [])
  | b :: rest =>
    if b = delim then ([b], rest)
    else
      let r := readBytesDelim delim rest
      (b :: r.1, r.2)

/-- binary.BigEndian.Uint64: Go panics (index out of range) on a slice of
fewer than 8 bytes; otherwise the value of the first 8 bytes. -/
def goUint64 (bs : List Nat) : Option Nat :=
  if bs.length < 8 then none else some (beVal (bs.take 8))

/-- binary.BigEndian.Uint32: Go panics on a slice of fewer than 4 bytes;
otherwise the value of the first 4 bytes. -/
def goUint32 (bs : List Nat) : Option Nat :=
  if bs.length < 4 then none else some (beVal (bs.take 4))

/-- The PacketID constants: the first three come from iota starting at 0. -/
def ConnectionRequestPid : Nat := 0

def ConnectionAcceptedPid : Nat := 1

def ConnectionRejectedPid : Nat := 2

def AcknowledgedPid : Nat := 0x0A

def ChannelOperationPid : Nat := 0x0B

def ContainerPid : Nat := 0x0C

def connectionRequestLength : Nat := 10

def connectionAcceptedLength : Nat := 9

def connectionRejectedLength : Nat := 2

def channelOperationLength : Nat := 3

def acknowledgedBaseLength : Nat := 6

def containerBaseLength : Nat := 4

/-- Reason string of the exact-mode length failure in checkPidAndLength. -/
def lengthMismatchExactMsg (n : Nat) : String :=
  "Length of buffer mismatch (should be " ++ Nat.repr n ++ " bytes)"

/-- Reason string of the at-least-mode length failure (the source really has
no space between "least" and the number). -/
def lengthMismatchAtLeastMsg (n : Nat) : String :=
  "Length of buffer mismatch (should be at least" ++ Nat.repr n ++ " bytes)"

/-- Reason string of the packet-id failure, naming expected and observed id. -/
def idMismatchMsg (expected got : Nat) : String :=
  "Packet ID Mismatch, should be " ++ Nat.repr expected ++ " (got " ++ Nat.repr got ++ ")"

/-- checkPidAndLength: the shared decode preamble.  Returns the error (if
any) together with the buffer state after the call (Go mutates the buffer
through the pointer). -/
def checkPidAndLength (buf : List Nat) (expectedId expectedLength : Nat)
    (atLeast : Bool) : Option String × List Nat :=
  if atLeast = false ∧ buf.length ≠ expectedLength then
    (some (lengthMismatchExactMsg expectedLength), buf)
  else if buf.length < expectedLength then
    (some (lengthMismatchAtLeastMsg expectedLength), buf)
  else
    let r := readByte buf
    if r.1 ≠ expectedId then
      (some (idMismatchMsg expectedId r.1), r.2)
    else
      (none, r.2)

/-- ConnectionRequestPacket: ClientId uint64, ProtocolVersion uint8. -/
structure ConnectionRequestPacket where
  ClientId : Nat
  ProtocolVersion : Nat
deriving Repr, DecidableEq

/-- ConnectionRequestPacket.Encode: pid byte, 8-byte big-endian client id,
protocol version byte.  Never fails. -/
def ConnectionRequestPacket.Encode (packet : ConnectionRequestPacket) :
    Except String (List Nat) :=
  .ok ([ConnectionRequestPid] ++ u64be packet.ClientId ++ [packet.ProtocolVersion])

/-- ConnectionRequestPacket.Decode.  Returns the outcome together with the
receiver's field state when the method returns (or panics). -/
def ConnectionRequestPacket.Decode (packet : ConnectionRequestPacket)
    (data : List Nat) : Outcome × ConnectionRequestPacket :=
  match checkPidAndLength data ConnectionRequestPid connectionRequestLength false with
  | (some e, _) => (.fail e, packet)
  | (none, buf1) =>
    let r := readBytesDelim 8 buf1
    match goUint64 r.1 with
    | none => (.crash, packet)
    | some cid =>
      let v := readByte r.2
      (.ok, { ClientId := cid, ProtocolVersion := v.1 })

/-- ConnectionAcceptedPacket: ServerId uint64. -/
structure ConnectionAcceptedPacket where
  ServerId : Nat
deriving Repr, DecidableEq

/-- ConnectionAcceptedPacket.Encode: pid byte then 8-byte server id. -/
def ConnectionAcceptedPacket.Encode (packet : ConnectionAcceptedPacket) :
    Except String (List Nat) :=
  .ok ([ConnectionAcceptedPid] ++ u64be packet.ServerId)

/-- ConnectionAcceptedPacket.Decode. -/
def ConnectionAcceptedPacket.Decode (packet : ConnectionAcceptedPacket)
    (data : List Nat) : Outcome × ConnectionAcceptedPacket :=
  match checkPidAndLength data ConnectionAcceptedPid connectionAcceptedLength false with
  | (some e, _) => (.fail e, packet)
  | (none, buf1) =>
    let r := readBytesDelim 8 buf1
    match goUint64 r.1 with
    | none => (.crash, packet)
    | some sid => (.ok, { ServerId := sid })

/-- ConnectionRejectedPacket: reason is a uint8-backed enum
(INCOMPATIBLE_PROTOCOL_VER 0, MAX_CONNECTIONS_REACHED 1, RATELIMITED 2). -/
structure ConnectionRejectedPacket where
  reason : Nat
deriving Repr, DecidableEq

/-- ConnectionRejectedPacket.Encode: pid byte then reason byte. -/
def ConnectionRejectedPacket.Encode (packet : ConnectionRejectedPacket) :
    Except String (List Nat) :=
  .ok [ConnectionRejectedPid, packet.reason]

/-- ConnectionRejectedPacket.Decode. -/
def ConnectionRejectedPacket.Decode (packet : ConnectionRejectedPacket)
    (data : List Nat) : Outcome × ConnectionRejectedPacket :=
  match checkPidAndLength data ConnectionRejectedPid connectionRejectedLength false with
  | (some e, _) => (.fail e, packet)
  | (none, buf1) =>
    let r := readByte buf1
    (.ok, { reason := r.1 })

/-- AcknowledgePacket: sequenceIds is a slice of uint32. -/
structure AcknowledgePacket where
  sequenceIds : List Nat
deriving Repr, DecidableEq

/-- The encode loop: WriteUInt32 of every sequence id in order. -/
def encodeIds : List Nat → List Nat
  | [] => []
  | v :: rest => u32be v ++ encodeIds rest

/-- AcknowledgePacket.Encode: errors when the id slice is empty; otherwise
pid byte, count byte (byte(len) = len mod 256), then every id, 4 bytes each. -/
def AcknowledgePacket.Encode (packet : AcknowledgePacket) :
    Except String (List Nat) :=
  if packet.sequenceIds.length < 1 then
    .error "sequenceIds array is empty!"
  else
    .ok ([AcknowledgedPid, packet.sequenceIds.length % 256] ++ encodeIds packet.sequenceIds)

/-- The decode loop of AcknowledgePacket: Go allocates make([]uint32, count)
and fills index i from ReadBytes(4)/Uint32; a panic at iteration i leaves the
first i slots filled and the rest zero.  Returns (outcome, slice state,
buffer state). -/
def ackFillIds : Nat → List Nat → Outcome × List Nat × List Nat
  | 0, buf => (.ok, [], buf)
  | n + 1, buf =>
    let r := readBytesDelim 4 buf
    match goUint32 r.1 with
    | none => (.crash, List.replicate (n + 1) 0, r.2)
    | some v =>
      let t := ackFillIds n r.2
      (t.1, v :: t.2.1, t.2.2)

/-- AcknowledgePacket.Decode: at-least-6 preamble, then the count byte; a
count of zero returns nil at once (receiver untouched); otherwise the fill
loop runs with no check that 4*count bytes remain. -/
def AcknowledgePacket.Decode (packet : AcknowledgePacket) (data : List Nat) :
    Outcome × AcknowledgePacket :=
  match checkPidAndLength data AcknowledgedPid acknowledgedBaseLength true with
  | (some e, _) => (.fail e, packet)
  | (none, buf1) =>
    let c := readByte buf1
    if c.1 < 1 then (.ok, packet)
    else
      let r := ackFillIds c.1 c.2
      (r.1, { sequenceIds := r.2.1 })

/-- ChannelOpPacket: operation enum (OPEN_CHANNEL 0, CLOSE_CHANNEL 1,
RESET_ORDERED_IDS 2) and channel id. -/
structure ChannelOpPacket where
  operation : Nat
  channel : Nat
deriving Repr, DecidableEq

/-- ChannelOpPacket.Encode: the source writes only the pid byte and the
channel byte (the operation byte is never written), yielding 2 bytes. -/
def ChannelOpPacket.Encode (packet : ChannelOpPacket) :
    Except String (List Nat) :=
  .ok [ChannelOperationPid, packet.channel]

/-- ChannelOpPacket.Decode: exact-3 preamble, then reads the channel byte
only (the operation field is never assigned). -/
def ChannelOpPacket.Decode (packet : ChannelOpPacket) (data : List Nat) :
    Outcome × ChannelOpPacket :=
  match checkPidAndLength data ChannelOperationPid channelOperationLength false with
  | (some e, _) => (.fail e, packet)
  | (none, buf1) =>
    let r := readByte buf1
    (.ok, { packet with channel := r.1 })

/-- ContainerPacket: the struct declared in the source (channel, three flag
booleans, conditional sequenceId and orderedId, length-prefixed payload). -/
structure ContainerPacket where
  channel : Nat
  reliable : Bool
  ordered : Bool
  compressed : Bool
  sequenceId : Nat
  orderedId : Nat
  payload : List Nat
deriving Repr, DecidableEq

/-- Modelled from the spec: the Container flags byte.  The source never
implements Encode/Decode for ContainerPacket; the spec fixes bit 0 =
reliable, bit 1 = ordered, bit 2 = compressed. -/
def containerFlags (p : ContainerPacket) : Nat :=
  (if p.reliable then 1 else 0) + (if p.ordered then 2 else 0) +
    (if p.compressed then 4 else 0)

/-- Modelled from the spec: the Container wire image — id byte, channel
byte, flags byte, then sequenceId (4 bytes) iff reliable, orderedId
(2 bytes) iff ordered, a uint16 length prefix, and the payload. -/
def containerBytes (p : ContainerPacket) : List Nat :=
  [ContainerPid, p.channel, containerFlags p] ++
    (if p.reliable then u32be p.sequenceId else []) ++
    (if p.ordered then u16be p.orderedId else []) ++
    u16be p.payload.length ++ p.payload

/-- Modelled from the spec: ContainerPacket.Encode is absent from the
source; per the spec it writes the wire image above and never fails. -/
def ContainerPacket.Encode (packet : ContainerPacket) :
    Except String (List Nat) :=
  .ok (containerBytes packet)

/-- Reads exactly n bytes, failing if fewer remain (the bounds-checked read
the spec prescribes for Container decoding). -/
def readExact (n : Nat) (buf : List Nat) : Option (List Nat × List Nat) :=
  if buf.length < n then none else some (buf.take n, buf.drop n)

/-- Modelled from the spec: the reason string for a truncated Container. -/
def containerTruncatedMsg : String :=
  "Length of buffer mismatch (container fields truncated)"

/-- Modelled from the spec: ContainerPacket.Decode is absent from the
source; per the spec it runs the at-least preamble against the base length,
reads channel and flags, then reads each conditional field gated on its flag
bit with a bounds check, failing rather than reading past the buffer. -/
def ContainerPacket.Decode (packet : ContainerPacket) (data : List Nat) :
    Outcome × ContainerPacket :=
  match checkPidAndLength data ContainerPid containerBaseLength true with
  | (some e, _) => (.fail e, packet)
  | (none, buf1) =>
    let c := readByte buf1
    let f := readByte c.2
    let reliable : Bool := f.1 % 2 = 1
    let ordered : Bool := f.1 / 2 % 2 = 1
    let compressed : Bool := f.1 / 4 % 2 = 1
    match (if reliable then readExact 4 f.2 else some ([], f.2)) with
    | none => (.fail containerTruncatedMsg, packet)
    | some (seqBytes, buf2) =>
      match (if ordered then readExact 2 buf2 else some ([], buf2)) with
      | none => (.fail containerTruncatedMsg, packet)
      | some (ordBytes, buf3) =>
        match readExact 2 buf3 with
        | none => (.fail containerTruncatedMsg, packet)
        | some (lenBytes, buf4) =>
          match readExact (beVal lenBytes) buf4 with
          | none => (.fail containerTruncatedMsg, packet)
          | some (payload, _) =>
            (.ok,
             { channel := c.1, reliable := reliable, ordered := ordered,
               compressed := compressed,
               sequenceId := if reliable then beVal seqBytes else packet.sequenceId,
               orderedId := if ordered then beVal ordBytes else packet.orderedId,
               payload := payload })

/-- True exactly on the error branch of an Encode result. -/
def encIsError : Except String (List Nat) → Bool
  | .error _ => true
  | .ok _ => false

/-! Helper lemmas about the shared decode preamble and the byte readers. -/

theorem checkPid_exact_fail (buf : List Nat) (id n : Nat) (h : buf.length ≠ n) :
    checkPidAndLength buf id n false = (some (lengthMismatchExactMsg n), buf) := by
  unfold checkPidAndLength
  rw [if_pos ⟨rfl, h⟩]

theorem checkPid_atLeast_fail (buf : List Nat) (id n : Nat) (h : buf.length < n) :
    checkPidAndLength buf id n true = (some (lengthMismatchAtLeastMsg n), buf) := by
  unfold checkPidAndLength
  rw [if_neg (by simp), if_pos h]

theorem checkPid_id_fail_exact (b : Nat) (rest : List Nat) (id n : Nat)
    (h : (b :: rest).length = n) (hb : b ≠ id) :
    checkPidAndLength (b :: rest) id n false = (some (idMismatchMsg id b), rest) := by
  unfold checkPidAndLength
  rw [if_neg (by rintro ⟨h1, h2⟩; exact h2 h), if_neg (by omega)]
  simp [readByte, hb]

theorem checkPid_id_fail_atLeast (b : Nat) (rest : List Nat) (id n : Nat)
    (h : n ≤ (b :: rest).length) (hb : b ≠ id) :
    checkPidAndLength (b :: rest) id n true = (some (idMismatchMsg id b), rest) := by
  unfold checkPidAndLength
  rw [if_neg (by simp), if_neg (by omega)]
  simp [readByte, hb]

theorem checkPid_pass_exact (b : Nat) (rest : List Nat) (n : Nat)
    (h : (b :: rest).length = n) :
    checkPidAndLength (b :: rest) b n false = (none, rest) := by
  unfold checkPidAndLength
  rw [if_neg (by rintro ⟨h1, h2⟩; exact h2 h), if_neg (by omega)]
  simp [readByte]

theorem checkPid_pass_atLeast (b : Nat) (rest : List Nat) (n : Nat)
    (h : n ≤ (b :: rest).length) :
    checkPidAndLength (b :: rest) b n true = (none, rest) := by
  unfold checkPidAndLength
  rw [if_neg (by simp), if_neg (by omega)]
  simp [readByte]

theorem encodeIds_length (l : List Nat) : (encodeIds l).length = 4 * l.length := by
  induction l with
  | nil => rfl
  | cons v rest ih =>
    simp [encodeIds, u32be, ih]
    omega

/-! The claims. -/

/-- C1: the claim says every Decode either returns a packet or an error and
never reads out of bounds or crashes, and that an over-declared count makes
decode fail rather than read past the buffer.  The code violates this:
AcknowledgePacket.Decode never re-validates the count against the remaining
bytes, and its ReadBytes(4)/Uint32 reads panic on a buffer whose count byte
declares more ids than the buffer holds; ConnectionRequestPacket.Decode
likewise panics on a well-sized buffer whose client-id bytes start with
0x08, because ReadBytes(8) treats 8 as a delimiter and returns a 1-byte
slice to Uint64. -/
theorem c1_decode_crashes :
    AcknowledgePacket.Decode ⟨[]⟩ [10, 2, 0, 0, 0, 7] = (.crash, ⟨[7, 0]⟩) ∧
    ConnectionRequestPacket.Decode ⟨0, 0⟩ [0, 8, 0, 0, 0, 0, 0, 0, 0, 0] =
      (.crash, ⟨0, 0⟩) :=
  ⟨rfl, rfl⟩

/-- C2: the claim says decode(encode(p)) succeeds and equals p for every
valid packet of every implemented kind.  The code violates this:
Acknowledge{[7, 99]} encodes fine, but decoding the result panics (the
first ReadBytes(4) consumes all eight id bytes, so the second Uint32 gets
an empty slice); ConnectionRequest{1, 8} decodes without error but loses
its protocol version (ReadBytes(8) consumes the version byte 8 as the
delimiter); ChannelOperation round-trips always fail because Encode emits
2 bytes while Decode demands exactly 3. -/
theorem c2_roundtrip_fails :
    AcknowledgePacket.Encode ⟨[7, 99]⟩ = .ok [10, 2, 0, 0, 0, 7, 0, 0, 0, 99] ∧
    AcknowledgePacket.Decode ⟨[]⟩ [10, 2, 0, 0, 0, 7, 0, 0, 0, 99] =
      (.crash, ⟨[7, 0]⟩) ∧
    ConnectionRequestPacket.Encode ⟨1, 8⟩ = .ok [0, 0, 0, 0, 0, 0, 0, 0, 1, 8] ∧
    ConnectionRequestPacket.Decode ⟨0, 0⟩ [0, 0, 0, 0, 0, 0, 0, 0, 1, 8] =
      (.ok, ⟨1, 0⟩) ∧
    ChannelOpPacket.Encode ⟨0, 5⟩ = .ok [11, 5] ∧
    ChannelOpPacket.Decode ⟨0, 5⟩ [11, 5] =
      (.fail (lengthMismatchExactMsg channelOperationLength), ⟨0, 5⟩) :=
  ⟨rfl, rfl, rfl, rfl, rfl, rfl⟩

/-- C3: the claim says the first identifier byte written matches the
registry 0x01/0x02/0x03/0x0A/0x0B/0x0C and that ConnectionRequest{42, 0}
encodes to [0x01, 0,0,0,0,0,0,0,42, 0x00].  The code violates the first
three values: iota starts at 0, so the handshake pids are 0x00, 0x01, 0x02
(contradicting the comments in the source that say ID 0x01/0x02/0x03), and
ConnectionRequest{42, 0} encodes with leading byte 0x00. -/
theorem c3_pid_registry :
    ConnectionRequestPacket.Encode ⟨42, 0⟩ = .ok [0, 0, 0, 0, 0, 0, 0, 0, 42, 0] ∧
    ConnectionRequestPid = 0x00 ∧
    ConnectionAcceptedPid = 0x01 ∧
    ConnectionRejectedPid = 0x02 ∧
    AcknowledgedPid = 0x0A ∧
    ChannelOperationPid = 0x0B ∧
    ContainerPid = 0x0C :=
  ⟨rfl, rfl, rfl, rfl, rfl, rfl, rfl⟩

/-- C4 counterexample: the claim says decoding the two-byte buffer
[0x0A, 0x00] succeeds with an empty id sequence; in fact the at-least-6
length check rejects it with a length-mismatch error. -/
theorem c4_two_byte_ack_rejected :
    AcknowledgePacket.Decode ⟨[]⟩ [0x0A, 0x00] =
      (.fail (lengthMismatchAtLeastMsg acknowledgedBaseLength), ⟨[]⟩) :=
  rfl

/-- C4 as amended: Encode of an empty Acknowledge fails, and Decode of a
buffer that passes the at-least-6 length check and has count byte zero
(e.g. [0x0A, 0x00, 0, 0, 0, 0]) succeeds, leaving the id sequence empty;
the bare two-byte buffer itself is rejected by the minimum-length check. -/
theorem c4_ack_empty_asymmetry (rest : List Nat) (h : 4 ≤ rest.length) :
    AcknowledgePacket.Encode ⟨[]⟩ = .error "sequenceIds array is empty!" ∧
    AcknowledgePacket.Decode ⟨[]⟩ (10 :: 0 :: rest) = (.ok, ⟨[]⟩) := by
  refine ⟨rfl, ?_⟩
  unfold AcknowledgePacket.Decode AcknowledgedPid acknowledgedBaseLength
  rw [checkPid_pass_atLeast 10 (0 :: rest) 6 (by simp; omega)]
  simp [readByte]

/-- Witness for C4's amended theorem at rest = [0, 0, 0, 0]. -/
theorem c4_ack_empty_asymmetry_witness :
    4 ≤ ([0, 0, 0, 0] : List Nat).length ∧
    (AcknowledgePacket.Encode ⟨[]⟩ = .error "sequenceIds array is empty!" ∧
     AcknowledgePacket.Decode ⟨[]⟩ (10 :: 0 :: [0, 0, 0, 0]) = (.ok, ⟨[]⟩)) :=
  ⟨by decide, c4_ack_empty_asymmetry [0, 0, 0, 0] (by decide)⟩

/-- C5: the claim says Encode yields exactly 10 bytes for ConnectionRequest,
9 for ConnectionAccepted, 2 for ConnectionRejected, 3 for ChannelOperation,
and 2 + 4n for Acknowledge with n >= 1 ids.  The code violates the
ChannelOperation case: its Encode writes only the id and channel bytes
(2 bytes, never 3, contradicting the source's own channelOperationLength
constant and its own Decode).  The other four lengths hold as claimed. -/
theorem c5_encode_lengths :
    (∀ p : ConnectionRequestPacket, ∃ out, p.Encode = .ok out ∧ out.length = 10) ∧
    (∀ p : ConnectionAcceptedPacket, ∃ out, p.Encode = .ok out ∧ out.length = 9) ∧
    (∀ p : ConnectionRejectedPacket, ∃ out, p.Encode = .ok out ∧ out.length = 2) ∧
    (∀ l : List Nat, 1 ≤ l.length →
      ∃ out, AcknowledgePacket.Encode ⟨l⟩ = .ok out ∧ out.length = 2 + 4 * l.length) ∧
    ChannelOpPacket.Encode ⟨0, 5⟩ = .ok [11, 5] ∧
    (2 : Nat) ≠ channelOperationLength := by
  refine ⟨fun p => ⟨_, rfl, by simp [u64be]⟩, fun p => ⟨_, rfl, by simp [u64be]⟩,
    fun p => ⟨_, rfl, rfl⟩, fun l h => ?_, rfl, by decide⟩
  simp only [AcknowledgePacket.Encode]
  rw [if_neg (by omega)]
  exact ⟨_, rfl, by simp [encodeIds_length]; omega⟩

/-- Witness for C5 at a one-element Acknowledge id list. -/
theorem c5_encode_lengths_witness :
    1 ≤ ([7] : List Nat).length ∧
    (∃ out, AcknowledgePacket.Encode ⟨[7]⟩ = .ok out ∧
      out.length = 2 + 4 * ([7] : List Nat).length) :=
  ⟨by decide, c5_encode_lengths.2.2.2.1 [7] (by decide)⟩

/-- C7: Acknowledge's Encode fails exactly when the sequence id list is
empty (signalling the invalid-argument reason string), and Encode of every
other kind never fails.  Proved from the source for the five implemented
kinds; the Container Encode is modelled from the spec and also never
fails. -/
theorem c7_encode_fail_iff :
    (∀ p : AcknowledgePacket, encIsError p.Encode = true ↔ p.sequenceIds = []) ∧
    (∀ p : AcknowledgePacket, p.sequenceIds = [] →
      p.Encode = .error "sequenceIds array is empty!") ∧
    (∀ p : ConnectionRequestPacket, encIsError p.Encode = false) ∧
    (∀ p : ConnectionAcceptedPacket, encIsError p.Encode = false) ∧
    (∀ p : ConnectionRejectedPacket, encIsError p.Encode = false) ∧
    (∀ p : ChannelOpPacket, encIsError p.Encode = false) ∧
    (∀ p : ContainerPacket, encIsError p.Encode = false) := by
  refine ⟨fun p => ?_, fun p h => ?_, fun p => rfl, fun p => rfl, fun p => rfl,
    fun p => rfl, fun p => rfl⟩
  · rcases p with ⟨l⟩
    cases l with
    | nil => simp [AcknowledgePacket.Encode, encIsError]
    | cons v rest => simp [AcknowledgePacket.Encode, encIsError]
  · rcases p with ⟨l⟩
    simp only at h
    subst h
    rfl

/-- Witness for C7's empty-list conjunct at the empty Acknowledge. -/
theorem c7_encode_fail_iff_witness :
    (⟨[]⟩ : AcknowledgePacket).sequenceIds = [] ∧
    AcknowledgePacket.Encode ⟨[]⟩ = .error "sequenceIds array is empty!" :=
  ⟨rfl, c7_encode_fail_iff.2.1 ⟨[]⟩ rfl⟩

/-- C10: Acknowledge's Encode does not enforce the 255-id maximum: with
n > 255 ids it succeeds, writes the count byte as n mod 256 followed by all
n four-byte ids (2 + 4n bytes in total), and the emitted count byte no
longer equals the number of ids present. -/
theorem c10_ack_count_overflow (l : List Nat) (h : 255 < l.length) :
    AcknowledgePacket.Encode ⟨l⟩ =
      .ok ([AcknowledgedPid, l.length % 256] ++ encodeIds l) ∧
    l.length % 256 ≠ l.length ∧
    ([AcknowledgedPid, l.length % 256] ++ encodeIds l).length = 2 + 4 * l.length := by
  refine ⟨?_, by omega, by simp [encodeIds_length]; omega⟩
  simp only [AcknowledgePacket.Encode]
  rw [if_neg (by omega)]

/-- Witness for C10 at a 256-id list. -/
theorem c10_ack_count_overflow_witness :
    255 < (List.replicate 256 7).length ∧
    (AcknowledgePacket.Encode ⟨List.replicate 256 7⟩ =
      .ok ([AcknowledgedPid, (List.replicate 256 7).length % 256] ++
        encodeIds (List.replicate 256 7)) ∧
     (List.replicate 256 7).length % 256 ≠ (List.replicate 256 7).length ∧
     ([AcknowledgedPid, (List.replicate 256 7).length % 256] ++
        encodeIds (List.replicate 256 7)).length = 2 + 4 * (List.replicate 256 7).length) :=
  ⟨by simp only [List.length_replicate]; omega,
   c10_ack_count_overflow (List.replicate 256 7) (by simp only [List.length_replicate]; omega)⟩

/-- C8: checkPidAndLength fails with the length-mismatch reason in Exact
mode unless the buffer length equals the expected length, and in AtLeast
mode unless it is at least the expected length; after a passing length
check it reads one byte and fails with the id-mismatch reason (naming both
the expected and the observed id) unless that byte equals the expected id;
on success it consumes exactly the one id byte, leaving the rest of the
buffer as the cursor position. -/
theorem c8_checkPidAndLength_spec :
    (∀ (buf : List Nat) (id n : Nat), buf.length ≠ n →
       checkPidAndLength buf id n false = (some (lengthMismatchExactMsg n), buf)) ∧
    (∀ (buf : List Nat) (id n : Nat), buf.length < n →
       checkPidAndLength buf id n true = (some (lengthMismatchAtLeastMsg n), buf)) ∧
    (∀ (b : Nat) (rest : List Nat) (id n : Nat), (b :: rest).length = n → b ≠ id →
       checkPidAndLength (b :: rest) id n false = (some (idMismatchMsg id b), rest)) ∧
    (∀ (b : Nat) (rest : List Nat) (id n : Nat), n ≤ (b :: rest).length → b ≠ id →
       checkPidAndLength (b :: rest) id n true = (some (idMismatchMsg id b), rest)) ∧
    (∀ (b : Nat) (rest : List Nat) (n : Nat), (b :: rest).length = n →
       checkPidAndLength (b :: rest) b n false = (none, rest)) ∧
    (∀ (b : Nat) (rest : List Nat) (n : Nat), n ≤ (b :: rest).length →
       checkPidAndLength (b :: rest) b n true = (none, rest)) :=
  ⟨checkPid_exact_fail, checkPid_atLeast_fail, checkPid_id_fail_exact,
   checkPid_id_fail_atLeast, checkPid_pass_exact, checkPid_pass_atLeast⟩

/-- Witness for C8: every conjunct applied at a concrete buffer. -/
theorem c8_checkPidAndLength_spec_witness :
    (([1, 2, 3] : List Nat).length ≠ 10 ∧
     checkPidAndLength [1, 2, 3] 0 10 false = (some (lengthMismatchExactMsg 10), [1, 2, 3])) ∧
    (([10, 0] : List Nat).length < 6 ∧
     checkPidAndLength [10, 0] 10 6 true = (some (lengthMismatchAtLeastMsg 6), [10, 0])) ∧
    ((9 :: [0] : List Nat).length = 2 ∧ (9 : Nat) ≠ 2 ∧
     checkPidAndLength (9 :: [0]) 2 2 false = (some (idMismatchMsg 2 9), [0])) ∧
    ((6 : Nat) ≤ (9 :: [0, 0, 0, 0, 0] : List Nat).length ∧ (9 : Nat) ≠ 10 ∧
     checkPidAndLength (9 :: [0, 0, 0, 0, 0]) 10 6 true = (some (idMismatchMsg 10 9), [0, 0, 0, 0, 0])) ∧
    ((2 :: [1] : List Nat).length = 2 ∧
     checkPidAndLength (2 :: [1]) 2 2 false = (none, [1])) ∧
    ((6 : Nat) ≤ (10 :: [0, 0, 0, 0, 0] : List Nat).length ∧
     checkPidAndLength (10 :: [0, 0, 0, 0, 0]) 10 6 true = (none, [0, 0, 0, 0, 0])) :=
  ⟨⟨by decide, c8_checkPidAndLength_spec.1 [1, 2, 3] 0 10 (by decide)⟩,
   ⟨by decide, c8_checkPidAndLength_spec.2.1 [10, 0] 10 6 (by decide)⟩,
   ⟨by decide, by decide, c8_checkPidAndLength_spec.2.2.1 9 [0] 2 2 (by decide) (by decide)⟩,
   ⟨by decide, by decide,
    c8_checkPidAndLength_spec.2.2.2.1 9 [0, 0, 0, 0, 0] 10 6 (by decide) (by decide)⟩,
   ⟨by decide, c8_checkPidAndLength_spec.2.2.2.2.1 2 [1] 2 (by decide)⟩,
   ⟨by decide, c8_checkPidAndLength_spec.2.2.2.2.2 10 [0, 0, 0, 0, 0] 6 (by decide)⟩⟩

/-- C9: for every packet kind, decoding a buffer of acceptable length whose
first byte is not the kind's id fails with the id-mismatch reason naming
the expected and observed ids, and returns the receiver packet completely
unchanged.  Proved from the source for the five implemented kinds;
ContainerPacket's decode is modelled from the spec and shares the same
preamble. -/
theorem c9_id_mismatch_atomic :
    (∀ (p : ConnectionRequestPacket) (b : Nat) (rest : List Nat),
       (b :: rest).length = connectionRequestLength → b ≠ ConnectionRequestPid →
       p.Decode (b :: rest) = (.fail (idMismatchMsg ConnectionRequestPid b), p)) ∧
    (∀ (p : ConnectionAcceptedPacket) (b : Nat) (rest : List Nat),
       (b :: rest).length = connectionAcceptedLength → b ≠ ConnectionAcceptedPid →
       p.Decode (b :: rest) = (.fail (idMismatchMsg ConnectionAcceptedPid b), p)) ∧
    (∀ (p : ConnectionRejectedPacket) (b : Nat) (rest : List Nat),
       (b :: rest).length = connectionRejectedLength → b ≠ ConnectionRejectedPid →
       p.Decode (b :: rest) = (.fail (idMismatchMsg ConnectionRejectedPid b), p)) ∧
    (∀ (p : ChannelOpPacket) (b : Nat) (rest : List Nat),
       (b :: rest).length = channelOperationLength → b ≠ ChannelOperationPid →
       p.Decode (b :: rest) = (.fail (idMismatchMsg ChannelOperationPid b), p)) ∧
    (∀ (p : AcknowledgePacket) (b : Nat) (rest : List Nat),
       acknowledgedBaseLength ≤ (b :: rest).length → b ≠ AcknowledgedPid →
       p.Decode (b :: rest) = (.fail (idMismatchMsg AcknowledgedPid b), p)) ∧
    (∀ (p : ContainerPacket) (b : Nat) (rest : List Nat),
       containerBaseLength ≤ (b :: rest).length → b ≠ ContainerPid →
       p.Decode (b :: rest) = (.fail (idMismatchMsg ContainerPid b), p)) := by
  refine ⟨fun p b rest hl hb => ?_, fun p b rest hl hb => ?_, fun p b rest hl hb => ?_,
    fun p b rest hl hb => ?_, fun p b rest hl hb => ?_, fun p b rest hl hb => ?_⟩
  · unfold ConnectionRequestPacket.Decode
    rw [checkPid_id_fail_exact b rest ConnectionRequestPid connectionRequestLength hl hb]
  · unfold ConnectionAcceptedPacket.Decode
    rw [checkPid_id_fail_exact b rest ConnectionAcceptedPid connectionAcceptedLength hl hb]
  · unfold ConnectionRejectedPacket.Decode
    rw [checkPid_id_fail_exact b rest ConnectionRejectedPid connectionRejectedLength hl hb]
  · unfold ChannelOpPacket.Decode
    rw [checkPid_id_fail_exact b rest ChannelOperationPid channelOperationLength hl hb]
  · unfold AcknowledgePacket.Decode
    rw [checkPid_id_fail_atLeast b rest AcknowledgedPid acknowledgedBaseLength hl hb]
  · unfold ContainerPacket.Decode
    rw [checkPid_id_fail_atLeast b rest ContainerPid containerBaseLength hl hb]

/-- Witness for C9: each kind decoding a right-sized buffer led by the
wrong id byte 9 (or 5 where 9 is a valid neighbour id). -/
theorem c9_id_mismatch_atomic_witness :
    ((9 :: [0, 0, 0, 0, 0, 0, 0, 0, 0] : List Nat).length = connectionRequestLength ∧ (9 : Nat) ≠ ConnectionRequestPid ∧
     ConnectionRequestPacket.Decode ⟨3, 4⟩ (9 :: [0, 0, 0, 0, 0, 0, 0, 0, 0]) =
       (.fail (idMismatchMsg ConnectionRequestPid 9), ⟨3, 4⟩)) ∧
    ((9 :: [0, 0, 0, 0, 0, 0, 0, 0] : List Nat).length = connectionAcceptedLength ∧ (9 : Nat) ≠ ConnectionAcceptedPid ∧
     ConnectionAcceptedPacket.Decode ⟨8⟩ (9 :: [0, 0, 0, 0, 0, 0, 0, 0]) =
       (.fail (idMismatchMsg ConnectionAcceptedPid 9), ⟨8⟩)) ∧
    ((9 :: [0] : List Nat).length = connectionRejectedLength ∧ (9 : Nat) ≠ ConnectionRejectedPid ∧
     ConnectionRejectedPacket.Decode ⟨1⟩ (9 :: [0]) =
       (.fail (idMismatchMsg ConnectionRejectedPid 9), ⟨1⟩)) ∧
    ((9 :: [0, 0] : List Nat).length = channelOperationLength ∧ (9 : Nat) ≠ ChannelOperationPid ∧
     ChannelOpPacket.Decode ⟨1, 2⟩ (9 :: [0, 0]) =
       (.fail (idMismatchMsg ChannelOperationPid 9), ⟨1, 2⟩)) ∧
    (acknowledgedBaseLength ≤ (9 :: [0, 0, 0, 0, 0] : List Nat).length ∧ (9 : Nat) ≠ AcknowledgedPid ∧
     AcknowledgePacket.Decode ⟨[5]⟩ (9 :: [0, 0, 0, 0, 0]) =
       (.fail (idMismatchMsg AcknowledgedPid 9), ⟨[5]⟩)) ∧
    (containerBaseLength ≤ (9 :: [0, 0, 0] : List Nat).length ∧ (9 : Nat) ≠ ContainerPid ∧
     ContainerPacket.Decode ⟨1, true, false, true, 2, 3, [4]⟩ (9 :: [0, 0, 0]) =
       (.fail (idMismatchMsg ContainerPid 9), ⟨1, true, false, true, 2, 3, [4]⟩)) :=
  ⟨⟨by decide, by decide,
    c9_id_mismatch_atomic.1 ⟨3, 4⟩ 9 [0, 0, 0, 0, 0, 0, 0, 0, 0] (by decide) (by decide)⟩,
   ⟨by decide, by decide,
    c9_id_mismatch_atomic.2.1 ⟨8⟩ 9 [0, 0, 0, 0, 0, 0, 0, 0] (by decide) (by decide)⟩,
   ⟨by decide, by decide,
    c9_id_mismatch_atomic.2.2.1 ⟨1⟩ 9 [0] (by decide) (by decide)⟩,
   ⟨by decide, by decide,
    c9_id_mismatch_atomic.2.2.2.1 ⟨1, 2⟩ 9 [0, 0] (by decide) (by decide)⟩,
   ⟨by decide, by decide,
    c9_id_mismatch_atomic.2.2.2.2.1 ⟨[5]⟩ 9 [0, 0, 0, 0, 0] (by decide) (by decide)⟩,
   ⟨by decide, by decide,
    c9_id_mismatch_atomic.2.2.2.2.2 ⟨1, true, false, true, 2, 3, [4]⟩ 9 [0, 0, 0] (by decide) (by decide)⟩⟩

/-! Helper lemmas for the Container codec modelled from the spec. -/

theorem readExact_four (a b c d : Nat) (rest : List Nat) :
    readExact 4 (a :: b :: c :: d :: rest) = some ([a, b, c, d], rest) := by
  unfold readExact
  rw [if_neg (by simp)]
  rfl

theorem readExact_two (a b : Nat) (rest : List Nat) :
    readExact 2 (a :: b :: rest) = some ([a, b], rest) := by
  unfold readExact
  rw [if_neg (by simp)]
  rfl

theorem beVal_two (n : Nat) : beVal [n / 256 % 256, n % 256] = n % 65536 := by
  simp [beVal, List.foldl]
  omega

theorem readExact_mod_payload (l : List Nat) :
    readExact (l.length % 65536) l =
      some (l.take (l.length % 65536), l.drop (l.length % 65536)) := by
  unfold readExact
  rw [if_neg (by omega)]

theorem checkPid_container (x y a : Nat) (rest : List Nat) :
    checkPidAndLength (12 :: x :: y :: a :: rest) 12 4 true = (none, x :: y :: a :: rest) :=
  checkPid_pass_atLeast 12 _ 4 (by simp)

theorem container_decode_flags (q p : ContainerPacket) :
    (ContainerPacket.Decode q (containerBytes p)).1 = .ok ∧
    (ContainerPacket.Decode q (containerBytes p)).2.reliable = p.reliable ∧
    (ContainerPacket.Decode q (containerBytes p)).2.ordered = p.ordered ∧
    (ContainerPacket.Decode q (containerBytes p)).2.compressed = p.compressed := by
  rcases p with ⟨ch, r, o, c, sid, oid, pl⟩
  cases r <;> cases o <;> cases c <;>
    simp [ContainerPacket.Decode, containerBytes, containerFlags, ContainerPid,
      containerBaseLength, u32be, u16be, checkPid_container, readByte, readExact_four,
      readExact_two, beVal_two, readExact_mod_payload]

/-- C6: for each of the four reliable/ordered flag combinations, the
encoded Container (modelled from the spec, which leaves this codec
unimplemented in the source) carries the 4-byte sequence id iff reliable
and the 2-byte ordered id iff ordered, its total length is
1 + 1 + 1 + 4*[reliable] + 2*[ordered] + 2 + len(payload), and decoding the
encoded bytes succeeds and recovers the same flag combination. -/
theorem c6_container_flag_conditionality (p q : ContainerPacket) :
    p.Encode = .ok (containerBytes p) ∧
    (containerBytes p).length =
      1 + 1 + 1 + (if p.reliable then 4 else 0) + (if p.ordered then 2 else 0) +
        2 + p.payload.length ∧
    (ContainerPacket.Decode q (containerBytes p)).1 = .ok ∧
    (ContainerPacket.Decode q (containerBytes p)).2.reliable = p.reliable ∧
    (ContainerPacket.Decode q (containerBytes p)).2.ordered = p.ordered ∧
    (ContainerPacket.Decode q (containerBytes p)).2.compressed = p.compressed := by
  have hd := container_decode_flags q p
  refine ⟨rfl, ?_, hd.1, hd.2.1, hd.2.2.1, hd.2.2.2⟩
  rcases p with ⟨ch, r, o, c, sid, oid, pl⟩
  cases r <;> cases o <;>
    simp [containerBytes, containerFlags, u32be, u16be] <;> try omega
